import Mathlib

/-!
Verification of the SRW driver translation layer.

This file embeds the two driver source files of the repository,
src/Driver/SRW/SRWDriver.py and src/examples/SRW/SRW_driver.py, as Lean
definitions.  Python floats are modelled as rationals; the external SRW
engine is an opaque collaborator modelled as a record of functions, and
every call into it is recorded in a trace.  In-place mutation of the
wavefront by the engine is modelled by the engine functions returning the
updated wavefront value.  The value of the host sqrt(2.0) is threaded as a
parameter, since the math library is outside the model.
-/

/-- A resolved settings parameter list, the value of a settings object's
toList() call.  The concrete parameter schema lives in the settings
classes, which are outside the modelled core; entries are rationals. -/
abbrev ParamList : Type := List ℚ

/-- A driver identity token: the spec keys settings by the identity of the
requesting driver instance (an opaque comparable token). -/
abbrev DriverId : Type := Nat

/-- Modelled from the spec: the SettingsBag of the domain model
(DriverSettingsManager) is not under src.  Per spec section 3 it is a
mapping from driver identity to an attached settings payload; a domain
object owns zero or one payload per driver identity. -/
structure SettingsBag where
  entries : List (DriverId × ParamList)

/-- Modelled from the spec: hasSettings(driverIdentity) of the domain
model is not under src; per spec section 4.1 it reports whether a payload
keyed by this driver identity is attached. -/
def hasSettings (bag : SettingsBag) (driver : DriverId) : Bool :=
  (bag.entries.lookup driver).isSome

/-- Modelled from the spec: settings(driverIdentity) of the domain model
is not under src; per spec section 4.1 it returns the previously attached
payload keyed by the driver identity if one exists, else that driver's
default settings. -/
def settingsOf (bag : SettingsBag) (driver : DriverId) (dflt : ParamList) : ParamList :=
  (bag.entries.lookup driver).getD dflt

/-- Generic electron beam of the domain model: average current, transverse
position and relativistic gamma (spec section 3). -/
structure ElectronBeam where
  averageCurrent : ℚ
  x : ℚ
  y : ℚ
  gamma : ℚ

/-- First statistical moments of the SRW particle beam (partStatMom1). -/
structure SRWParticle where
  x : ℚ
  y : ℚ
  z : ℚ
  xp : ℚ
  yp : ℚ
  gamma : ℚ

/-- The SRW native electron beam record (SRWLPartBeam). -/
structure SRWLPartBeam where
  Iavg : ℚ
  partStatMom1 : SRWParticle

/-- An SRW harmonic magnetic-field term, SRWLMagFldH(n, h_or_v, B, ph, s, a). -/
structure SRWLMagFldH where
  n : ℤ
  h_or_v : Char
  B : ℚ
  ph : ℚ
  s : ℤ
  a : ℚ

/-- The SRW undulator field record, SRWLMagFldU(arHarm, per, nPer). -/
structure SRWLMagFldU where
  arHarm : List SRWLMagFldH
  per : ℚ
  nPer : ℚ

/-- A magnetic structure stored in an SRW field container: either an
undulator field or a bending-magnet field (the latter built from radius,
field strength and length). -/
inductive SRWMagFld where
  | fldU (u : SRWLMagFldU)
  | fldBM (radius : ℚ) (magneticField : ℚ) (len : ℚ)

/-- The SRW magnetic-field container, SRWLMagFldC. -/
structure SRWLMagFldC where
  arMagFld : List SRWMagFld
  arXc : List ℚ
  arYc : List ℚ
  arZc : List ℚ

/-- The SRW wavefront sampling mesh (SRWLRadMesh): longitudinal position,
photon-energy range, transverse extents and sample counts. -/
structure SRWLRadMesh where
  zStart : ℚ
  eStart : ℚ
  eFin : ℚ
  xStart : ℚ
  xFin : ℚ
  yStart : ℚ
  yFin : ℚ
  ne : Nat
  nx : Nat
  ny : Nat

/-- The SRW wavefront record (SRWLWfr): its mesh and the electron beam it
was computed for.  The complex samples live inside the opaque engine. -/
structure SRWLWfr where
  mesh : SRWLRadMesh
  partBeam : SRWLPartBeam

/-- A translated SRW optical element: a drift space SRWLOptD(L) or an
ideal thin lens SRWLOptL(fx, fy). -/
inductive SRWOpt where
  | optD (L : ℚ)
  | optL (fx : ℚ) (fy : ℚ)

/-- The SRW composite optical system SRWLOptC(elements, prefs): translated
elements paired with their propagation-parameter lists. -/
structure SRWLOptC where
  elements : List SRWOpt
  prefs : List ParamList

/-- Generic undulator of the domain model (spec section 3): deflection
parameters, field strengths, period data, total length, and the
resonance-energy and central-cone-divergence formulas, which are opaque
domain-model functions. -/
structure Undulator where
  K_vertical : ℚ
  K_horizontal : ℚ
  B_vertical : ℚ
  B_horizontal : ℚ
  periodLength : ℚ
  periodNumber : ℚ
  length : ℚ
  gaussianCentralConeDivergence : ℚ → ℚ
  resonanceEnergy : ℚ → ℚ → ℚ → ℚ
  bag : SettingsBag

/-- Modelled from the spec: the generic BendingMagnet class is not under
src; per spec section 3 it exposes radius, field strength, length and an
angular acceptance, and may carry a settings bag. -/
structure BendingMagnet where
  radius : ℚ
  magneticField : ℚ
  length : ℚ
  acceptanceHorizontal : ℚ
  acceptanceVertical : ℚ
  bag : SettingsBag

/-- The radiation-source variants dispatched on by calculateRadiation. -/
inductive RadiationSource where
  | undulator (u : Undulator)
  | bendingMagnet (b : BendingMagnet)

/-- The beamline-component variants dispatched on by the traversal:
an ideal lens with focal lengths, or an image plane, each optionally
carrying driver-keyed settings. -/
inductive BeamlineComponent where
  | lensIdeal (name : String) (focalX : ℚ) (focalY : ℚ) (bag : SettingsBag)
  | imagePlane (name : String) (bag : SettingsBag)

/-- The settings bag attached to a beamline component. -/
def BeamlineComponent.bag : BeamlineComponent → SettingsBag
  | lensIdeal _ _ _ b => b
  | imagePlane _ b => b

/-- A beamline: an ordered sequence of (component, longitudinal position)
pairs.  Iteration yields components in order, and positionOf a component
yields the paired position, which is how the drivers consume it. -/
structure Beamline where
  components : List (BeamlineComponent × ℚ)

/-- Errors surfaced by the embedded drivers: the invalid-beamline error on
an empty beamline (spec section 7) and the NotImplementedError raised on
unsupported variants. -/
inductive DriverError where
  | invalidBeamline
  | notImplemented

/-- Precision of an output array allocated by the extractors:
array with typecode f is single precision, d is double precision. -/
inductive Precision where
  | single
  | double

/-- An allocated output array: its precision and initial contents. -/
structure ArrSpec where
  prec : Precision
  contents : List ℚ

/-- An extraction request issued to srwl.CalcIntFromElecField, with the
positional arguments of the call (spec section 6 names them outputArray,
field, mode, polarization, dependentVar, energy, x, y). -/
structure ExtractRequest where
  out : ArrSpec
  wfr : SRWLWfr
  mode : ℤ
  polarization : ℤ
  dependentVariable : ℤ
  energy : ℚ
  x : ℚ
  y : ℚ

/-- A recorded call into the external SRW engine made by
calculateRadiation. -/
inductive EngineCall where
  | calcElecFieldSR (wfr : SRWLWfr) (flag : ℤ) (fld : SRWLMagFldC) (params : ParamList)
  | propagElecField (wfr : SRWLWfr) (optC : SRWLOptC)

/-- The optical system handed to a recorded propagation call, if the call
is one. -/
def EngineCall.optC? : EngineCall → Option SRWLOptC
  | propagElecField _ c => some c
  | _ => none

/-- The parameter list handed to a recorded source-field call, if the call
is one. -/
def EngineCall.params? : EngineCall → Option ParamList
  | calcElecFieldSR _ _ _ p => some p
  | _ => none

/-- The wavefront handed to a recorded source-field call, if the call is
one. -/
def EngineCall.wfr? : EngineCall → Option SRWLWfr
  | calcElecFieldSR w _ _ _ => some w
  | _ => none

/-- The opaque external SRW engine: the spec treats it as an oracle that
computes a source field into a wavefront, propagates a wavefront through
an optical system (both mutate the wavefront in place, modelled by
returning the new value) and fills an output array from a field. -/
structure Engine where
  calcElecFieldSR : SRWLWfr → ℤ → SRWLMagFldC → ParamList → SRWLWfr
  propagElecField : SRWLWfr → SRWLOptC → SRWLWfr
  calcIntFromElecField : ExtractRequest → List ℚ

/-- Python int() applied to a float truncates toward zero; on an exact
rational num/den this is signed truncating integer division. -/
def pyInt (q : ℚ) : ℤ :=
  Int.tdiv q.num q.den

deriving instance DecidableEq for SettingsBag
deriving instance DecidableEq for ElectronBeam
deriving instance DecidableEq for SRWParticle
deriving instance DecidableEq for SRWLPartBeam
deriving instance DecidableEq for SRWLMagFldH
deriving instance DecidableEq for SRWLMagFldU
deriving instance DecidableEq for SRWMagFld
deriving instance DecidableEq for SRWLMagFldC
deriving instance DecidableEq for SRWLRadMesh
deriving instance DecidableEq for SRWLWfr
deriving instance DecidableEq for SRWOpt
deriving instance DecidableEq for SRWLOptC
deriving instance DecidableEq for BeamlineComponent
deriving instance DecidableEq for DriverError
deriving instance DecidableEq for Precision
deriving instance DecidableEq for ArrSpec
deriving instance DecidableEq for ExtractRequest
deriving instance DecidableEq for EngineCall

/-- The per-component settings resolution performed by the traversal
(SRWDriver.py lines 161-167, SRW_driver.py lines 122-128): use the custom
settings attached for this driver if present, otherwise a freshly
constructed default beamline-component settings object, and take its
parameter list. -/
def resolvedParams (driver : DriverId) (compDefault : ParamList)
    (component : BeamlineComponent) : ParamList :=
  if hasSettings component.bag driver then settingsOf component.bag driver compDefault
  else compDefault

/-- The running state of the beamline traversal: the translated optical
elements, the parallel settings lists, and the current longitudinal
position. -/
structure TravState where
  elements : List SRWOpt
  prefs : List ParamList
  currentZ : ℚ

deriving instance DecidableEq for TravState

/-- Embedding of the beamline-traversal loop, textually identical in both
drivers (SRWDriver.py lines 143-169, SRW_driver.py lines 104-130): for
each (component, position) pair, if the position is strictly beyond the
current position, append a drift of the gap length paired with a default
settings entry and advance; then translate the component (only LensIdeal
is implemented, anything else raises NotImplementedError) and append its
resolved settings. -/
def traverseLoop (driver : DriverId) (compDefault : ParamList) :
    List (BeamlineComponent × ℚ) → TravState → Except DriverError TravState
  | [], st => Except.ok st
  | (component, z) :: rest, st =>
    let st1 : TravState :=
      if st.currentZ < z then
        { elements := st.elements ++ [SRWOpt.optD (z - st.currentZ)],
          prefs := st.prefs ++ [compDefault],
          currentZ := z }
      else st
    match component with
    | BeamlineComponent.lensIdeal _ fx fy _ =>
      traverseLoop driver compDefault rest
        { elements := st1.elements ++ [SRWOpt.optL fx fy],
          prefs := st1.prefs ++ [resolvedParams driver compDefault component],
          currentZ := st1.currentZ }
    | BeamlineComponent.imagePlane _ _ => Except.error DriverError.notImplemented

namespace DriverSRW

/-- Embedding of SRWDriver._SRWElectronBeam (src/Driver/SRW/SRWDriver.py
lines 16-32): current and transverse first moments are copied, the
longitudinal moment and both angular divergences are fixed at zero. -/
def SRWElectronBeam (electron_beam : ElectronBeam) : SRWLPartBeam :=
  { Iavg := electron_beam.averageCurrent,
    partStatMom1 :=
      { x := electron_beam.x, y := electron_beam.y, z := 0, xp := 0, yp := 0,
        gamma := electron_beam.gamma } }

/-- Embedding of SRWDriver._SRWUndulator (lines 34-54): a vertical
harmonic term is appended when K_vertical is strictly positive, then a
horizontal harmonic term when K_horizontal is strictly positive. -/
def SRWUndulator (undulator : Undulator) : SRWLMagFldU :=
  let magnetic_fields : List SRWLMagFldH :=
    (if undulator.K_vertical > 0 then
      [{ n := 1, h_or_v := 'v', B := undulator.B_vertical, ph := 0, s := 1, a := 1 }]
     else [])
    ++ (if undulator.K_horizontal > 0 then
      [{ n := 1, h_or_v := 'h', B := undulator.B_horizontal, ph := 0, s := -1, a := 1 }]
     else [])
  { arHarm := magnetic_fields, per := undulator.periodLength,
    nPer := undulator.periodNumber }

/-- Embedding of SRWDriver._magnetFieldFromUndulator (lines 56-67). -/
def magnetFieldFromUndulator (undulator : Undulator) : SRWLMagFldC :=
  { arMagFld := [SRWMagFld.fldU (SRWUndulator undulator)],
    arXc := [0], arYc := [0], arZc := [0] }

/-- Embedding of SRWDriver._createQuadraticSRWWavefrontSingleEnergy
(lines 69-86): a square mesh of the given half-width centered at zero, at
a single photon energy, starting at z_start. -/
def createQuadraticSRWWavefrontSingleEnergy (grid_size : Nat) (grid_length : ℚ)
    (z_start : ℚ) (srw_electron_beam : SRWLPartBeam) (energy : ℚ) : SRWLWfr :=
  { mesh :=
      { zStart := z_start, eStart := energy, eFin := energy,
        xStart := -grid_length, xFin := grid_length,
        yStart := -grid_length, yFin := grid_length,
        ne := 1, nx := grid_size, ny := grid_size },
    partBeam := srw_electron_beam }

/-- The wavefront built by the undulator branch of calculateRadiation
(lines 111-121): maximum emission angle 2.5 times the central-cone
divergence, sampling plane at undulator length plus the first component
position, square half-width max_theta times z_start divided by sqrt(2.0)
(whose host value is the sqrt2 parameter), photon energy the resonance
energy truncated by Python int(). -/
def undulatorWavefront (sqrt2 : ℚ) (electron_beam : ElectronBeam)
    (undulator : Undulator) (position_first_component : ℚ) : SRWLWfr :=
  let max_theta := undulator.gaussianCentralConeDivergence electron_beam.gamma * 2.5
  let z_start := undulator.length + position_first_component
  let grid_length := max_theta * z_start / sqrt2
  createQuadraticSRWWavefrontSingleEnergy 1000 grid_length z_start
    (SRWElectronBeam electron_beam)
    ((pyInt (undulator.resonanceEnergy electron_beam.gamma 0 0) : ℚ))

/-- Embedding of SRWDriver.calculateRadiation (lines 88-179).  The first
component and its position are looked up first; on an empty beamline this
is modelled per the spec as an invalid-beamline error raised before any
engine call.  Only the undulator source is implemented in this file; the
traversal and the propagation call follow.  The trace of engine calls is
returned next to the result. -/
def calculateRadiation (engine : Engine) (sqrt2 : ℚ)
    (srcDefault compDefault : ParamList) (driver : DriverId)
    (electron_beam : ElectronBeam) (radiation_source : RadiationSource)
    (beamline : Beamline) : List EngineCall × Except DriverError SRWLWfr :=
  match beamline.components with
  | [] => ([], Except.error DriverError.invalidBeamline)
  | (first_component, position_first_component) :: rest =>
    match radiation_source with
    | RadiationSource.undulator undulator =>
      let magFldCnt := magnetFieldFromUndulator undulator
      let wavefront := undulatorWavefront sqrt2 electron_beam undulator
        position_first_component
      let undulator_settings :=
        if hasSettings undulator.bag driver then
          settingsOf undulator.bag driver srcDefault
        else srcDefault
      let wavefront1 := engine.calcElecFieldSR wavefront 0 magFldCnt undulator_settings
      let call1 := EngineCall.calcElecFieldSR wavefront 0 magFldCnt undulator_settings
      match traverseLoop driver compDefault
          ((first_component, position_first_component) :: rest)
          { elements := [], prefs := [], currentZ := position_first_component } with
      | Except.error e => ([call1], Except.error e)
      | Except.ok st =>
        let srw_beamline : SRWLOptC := { elements := st.elements, prefs := st.prefs }
        ([call1, EngineCall.propagElecField wavefront1 srw_beamline],
         Except.ok (engine.propagElecField wavefront1 srw_beamline))
    | RadiationSource.bendingMagnet _ => ([], Except.error DriverError.notImplemented)

/-- Embedding of SRWDriver.calculateIntensity (lines 181-193): allocate a
zero-initialized single-precision array of nx times ny samples, request
intensity extraction with positional arguments (6, 0, 3, eStart, 0, 0),
and return the samples with micrometer-scaled display meshes.  The
extraction call fills only the output array (spec section 6), so the
field handle is returned unchanged. -/
def calculateIntensity (engine : Engine) (radiation : SRWLWfr) :
    (ExtractRequest × List ℚ × (ℚ × ℚ × Nat) × (ℚ × ℚ × Nat)) × SRWLWfr :=
  let wavefront := radiation
  let mesh := wavefront.mesh
  let intensity : ArrSpec :=
    { prec := Precision.single, contents := List.replicate (mesh.nx * mesh.ny) 0 }
  let request : ExtractRequest :=
    { out := intensity, wfr := wavefront, mode := 6, polarization := 0,
      dependentVariable := 3, energy := mesh.eStart, x := 0, y := 0 }
  let samples := engine.calcIntFromElecField request
  let plot_mesh_x : ℚ × ℚ × Nat := (1000000 * mesh.xStart, 1000000 * mesh.xFin, mesh.nx)
  let plot_mesh_y : ℚ × ℚ × Nat := (1000000 * mesh.yStart, 1000000 * mesh.yFin, mesh.ny)
  ((request, samples, plot_mesh_x, plot_mesh_y), radiation)

/-- Embedding of SRWDriver.calculatePhase (lines 195-209): identical mesh
handling, but a zero-initialized double-precision array and positional
arguments (0, 4, 3, eStart, 0, 0). -/
def calculatePhase (engine : Engine) (radiation : SRWLWfr) :
    (ExtractRequest × List ℚ × (ℚ × ℚ × Nat) × (ℚ × ℚ × Nat)) × SRWLWfr :=
  let wavefront := radiation
  let mesh := wavefront.mesh
  let phase : ArrSpec :=
    { prec := Precision.double, contents := List.replicate (mesh.nx * mesh.ny) 0 }
  let request : ExtractRequest :=
    { out := phase, wfr := wavefront, mode := 0, polarization := 4,
      dependentVariable := 3, energy := mesh.eStart, x := 0, y := 0 }
  let samples := engine.calcIntFromElecField request
  let plot_mesh_x : ℚ × ℚ × Nat := (1000000 * mesh.xStart, 1000000 * mesh.xFin, mesh.nx)
  let plot_mesh_y : ℚ × ℚ × Nat := (1000000 * mesh.yStart, 1000000 * mesh.yFin, mesh.ny)
  ((request, samples, plot_mesh_x, plot_mesh_y), radiation)

end DriverSRW

namespace SRWAdapter

/-- Modelled from the spec: examples/SRW/SRW_adapter.py is not under src.
Per spec section 4.4 step 2 the electron-beam translation is the one the
in-src SRWDriver helper performs (current, transverse first moments,
gamma; longitudinal moment and divergences zero). -/
def SRWElectronBeam (electron_beam : ElectronBeam) : SRWLPartBeam :=
  DriverSRW.SRWElectronBeam electron_beam

/-- Modelled from the spec: SRW_adapter.py is not under src.  Per spec
section 4.2 the undulator field translation is the one the in-src
SRWDriver helpers perform. -/
def magnetFieldFromUndulator (undulator : Undulator) : SRWLMagFldC :=
  DriverSRW.magnetFieldFromUndulator undulator

/-- Modelled from the spec: SRW_adapter.py is not under src.  Per spec
section 4.2 the bending-magnet field representation is built from radius,
field strength and length, placed in a container like the undulator
one. -/
def magnetFieldFromBendingMagnet (bending_magnet : BendingMagnet) : SRWLMagFldC :=
  { arMagFld := [SRWMagFld.fldBM bending_magnet.radius bending_magnet.magneticField
      bending_magnet.length],
    arXc := [0], arYc := [0], arZc := [0] }

/-- Modelled from the spec: SRW_adapter.py is not under src.  Per spec
section 4.2 the quadratic wavefront construction matches the in-src
SRWDriver helper. -/
def createQuadraticSRWWavefrontSingleEnergy (grid_size : Nat) (grid_length : ℚ)
    (z_start : ℚ) (srw_electron_beam : SRWLPartBeam) (energy : ℚ) : SRWLWfr :=
  DriverSRW.createQuadraticSRWWavefrontSingleEnergy grid_size grid_length z_start
    srw_electron_beam energy

/-- Modelled from the spec: SRW_adapter.py is not under src.  Per spec
section 4.2 the rectangular wavefront has horizontal half-width
grid_length_horizontal and vertical half-width grid_length_vertical, the
same fixed resolution convention as the quadratic one, a single photon
energy, and starts at z_start. -/
def createRectangularSRWWavefrontSingleEnergy (grid_size : Nat)
    (grid_length_vertical grid_length_horizontal : ℚ) (z_start : ℚ)
    (srw_electron_beam : SRWLPartBeam) (energy : ℚ) : SRWLWfr :=
  { mesh :=
      { zStart := z_start, eStart := energy, eFin := energy,
        xStart := -grid_length_horizontal, xFin := grid_length_horizontal,
        yStart := -grid_length_vertical, yFin := grid_length_vertical,
        ne := 1, nx := grid_size, ny := grid_size },
    partBeam := srw_electron_beam }

end SRWAdapter

namespace ExamplesSRW

/-- The wavefront built by the undulator branch of the examples driver
(src/examples/SRW/SRW_driver.py lines 44-54), identical in form to the
Driver-file undulator branch. -/
def undulatorWavefront (sqrt2 : ℚ) (electron_beam : ElectronBeam)
    (undulator : Undulator) (position_first_component : ℚ) : SRWLWfr :=
  let max_theta := undulator.gaussianCentralConeDivergence electron_beam.gamma * 2.5
  let z_start := undulator.length + position_first_component
  let grid_length := max_theta * z_start / sqrt2
  SRWAdapter.createQuadraticSRWWavefrontSingleEnergy 1000 grid_length z_start
    (SRWAdapter.SRWElectronBeam electron_beam)
    ((pyInt (undulator.resonanceEnergy electron_beam.gamma 0 0) : ℚ))

/-- The wavefront built by the bending-magnet branch of the examples
driver (src/examples/SRW/SRW_driver.py lines 70-84): z_start is simply the
first component position, and the acceptance angles are the hardcoded
constants 0.1 rad and 0.02 rad of lines 72 and 75, giving half-widths
0.5 * angle * z_start; the photon energy is the hardcoded 0.5 * 0.123984
of line 78. -/
def bendingMagnetWavefront (srw_electron_beam : SRWLPartBeam)
    (position_first_component : ℚ) : SRWLWfr :=
  let z_start := position_first_component
  let horizontal_angle : ℚ := 0.1
  let horizontal_grid_length := 0.5 * horizontal_angle * z_start
  let vertical_angle : ℚ := 0.02
  let vertical_grid_length := 0.5 * vertical_angle * z_start
  let energy : ℚ := 0.5 * 0.123984
  SRWAdapter.createRectangularSRWWavefrontSingleEnergy 1000 vertical_grid_length
    horizontal_grid_length z_start srw_electron_beam energy

/-- Embedding of the examples SRWDriver.calculateRadiation
(src/examples/SRW/SRW_driver.py lines 19-140).  Undulator and bending
magnet sources are dispatched; the first component and its position are
looked up first, and on an empty beamline this is modelled per the spec as
an invalid-beamline error raised before any engine call.  The trace of
engine calls is returned next to the result. -/
def calculateRadiation (engine : Engine) (sqrt2 : ℚ)
    (undDefault bmDefault compDefault : ParamList) (driver : DriverId)
    (electron_beam : ElectronBeam) (radiation_source : RadiationSource)
    (beamline : Beamline) : List EngineCall × Except DriverError SRWLWfr :=
  match beamline.components with
  | [] => ([], Except.error DriverError.invalidBeamline)
  | (first_component, position_first_component) :: rest =>
    let srw_electron_beam := SRWAdapter.SRWElectronBeam electron_beam
    let sourceStep : Option (SRWLWfr × EngineCall) :=
      match radiation_source with
      | RadiationSource.undulator undulator =>
        let magFldCnt := SRWAdapter.magnetFieldFromUndulator undulator
        let wavefront := undulatorWavefront sqrt2 electron_beam undulator
          position_first_component
        let undulator_settings :=
          if hasSettings undulator.bag driver then
            settingsOf undulator.bag driver undDefault
          else undDefault
        some (engine.calcElecFieldSR wavefront 0 magFldCnt undulator_settings,
          EngineCall.calcElecFieldSR wavefront 0 magFldCnt undulator_settings)
      | RadiationSource.bendingMagnet bending_magnet =>
        let magFldCnt := SRWAdapter.magnetFieldFromBendingMagnet bending_magnet
        let wavefront := bendingMagnetWavefront srw_electron_beam
          position_first_component
        let bending_magnet_settings :=
          if hasSettings bending_magnet.bag driver then
            settingsOf bending_magnet.bag driver bmDefault
          else bmDefault
        some (engine.calcElecFieldSR wavefront 0 magFldCnt bending_magnet_settings,
          EngineCall.calcElecFieldSR wavefront 0 magFldCnt bending_magnet_settings)
    match sourceStep with
    | none => ([], Except.error DriverError.notImplemented)
    | some (wavefront1, call1) =>
      match traverseLoop driver compDefault
          ((first_component, position_first_component) :: rest)
          { elements := [], prefs := [], currentZ := position_first_component } with
      | Except.error e => ([call1], Except.error e)
      | Except.ok st =>
        let srw_beamline : SRWLOptC := { elements := st.elements, prefs := st.prefs }
        ([call1, EngineCall.propagElecField wavefront1 srw_beamline],
         Except.ok (engine.propagElecField wavefront1 srw_beamline))

/-- Embedding of the examples SRWDriver.calculateIntensity
(src/examples/SRW/SRW_driver.py lines 142-154), textually identical to the
Driver-file implementation. -/
def calculateIntensity (engine : Engine) (radiation : SRWLWfr) :
    (ExtractRequest × List ℚ × (ℚ × ℚ × Nat) × (ℚ × ℚ × Nat)) × SRWLWfr :=
  let wavefront := radiation
  let mesh := wavefront.mesh
  let intensity : ArrSpec :=
    { prec := Precision.single, contents := List.replicate (mesh.nx * mesh.ny) 0 }
  let request : ExtractRequest :=
    { out := intensity, wfr := wavefront, mode := 6, polarization := 0,
      dependentVariable := 3, energy := mesh.eStart, x := 0, y := 0 }
  let samples := engine.calcIntFromElecField request
  let plot_mesh_x : ℚ × ℚ × Nat := (1000000 * mesh.xStart, 1000000 * mesh.xFin, mesh.nx)
  let plot_mesh_y : ℚ × ℚ × Nat := (1000000 * mesh.yStart, 1000000 * mesh.yFin, mesh.ny)
  ((request, samples, plot_mesh_x, plot_mesh_y), radiation)

/-- Embedding of the examples SRWDriver.calculatePhase
(src/examples/SRW/SRW_driver.py lines 156-170), textually identical to the
Driver-file implementation. -/
def calculatePhase (engine : Engine) (radiation : SRWLWfr) :
    (ExtractRequest × List ℚ × (ℚ × ℚ × Nat) × (ℚ × ℚ × Nat)) × SRWLWfr :=
  let wavefront := radiation
  let mesh := wavefront.mesh
  let phase : ArrSpec :=
    { prec := Precision.double, contents := List.replicate (mesh.nx * mesh.ny) 0 }
  let request : ExtractRequest :=
    { out := phase, wfr := wavefront, mode := 0, polarization := 4,
      dependentVariable := 3, energy := mesh.eStart, x := 0, y := 0 }
  let samples := engine.calcIntFromElecField request
  let plot_mesh_x : ℚ × ℚ × Nat := (1000000 * mesh.xStart, 1000000 * mesh.xFin, mesh.nx)
  let plot_mesh_y : ℚ × ℚ × Nat := (1000000 * mesh.yStart, 1000000 * mesh.yFin, mesh.ny)
  ((request, samples, plot_mesh_x, plot_mesh_y), radiation)

end ExamplesSRW

/-- A component is a supported transfer element of the traversal, that is
an ideal lens. -/
def IsLens : BeamlineComponent → Prop
  | BeamlineComponent.lensIdeal _ _ _ _ => True
  | BeamlineComponent.imagePlane _ _ => False

instance : DecidablePred IsLens := fun c =>
  match c with
  | BeamlineComponent.lensIdeal _ _ _ _ => Decidable.isTrue trivial
  | BeamlineComponent.imagePlane _ _ => Decidable.isFalse id

/-- The drift segments required between the previous position and the next
one: exactly one drift of the gap length when the next position is
strictly beyond, none otherwise. -/
def driftFor (prev z : ℚ) : List SRWOpt :=
  if prev < z then [SRWOpt.optD (z - prev)] else []

/-- The translated elements a component itself contributes: one thin lens
for an ideal lens, nothing for an image plane. -/
def lensElems : BeamlineComponent → List SRWOpt
  | BeamlineComponent.lensIdeal _ fx fy _ => [SRWOpt.optL fx fy]
  | BeamlineComponent.imagePlane _ _ => []

/-- The optical sequence the traversal is expected to build for a beamline
whose positions are non-decreasing, starting from the given current
position: for each component, the drift chunk for its gap followed by its
own translated element. -/
def expectedElements (prev : ℚ) : List (BeamlineComponent × ℚ) → List SRWOpt
  | [] => []
  | (c, z) :: rest => driftFor prev z ++ lensElems c ++ expectedElements z rest

/-- The settings sequence the traversal is expected to build in parallel:
a default entry for each inserted drift, then the component's resolved
settings. -/
def expectedPrefs (driver : DriverId) (compDefault : ParamList) (prev : ℚ) :
    List (BeamlineComponent × ℚ) → List ParamList
  | [] => []
  | (c, z) :: rest =>
    (if prev < z then [compDefault] else []) ++ [resolvedParams driver compDefault c]
      ++ expectedPrefs driver compDefault z rest

/-- The current position after traversing a beamline with non-decreasing
positions: the last position, or the start if there is none. -/
def finalZ (prev : ℚ) : List (BeamlineComponent × ℚ) → ℚ
  | [] => prev
  | (_, z) :: rest => finalZ z rest

/-- A single element paired with its settings entry respects drift
pairing: a drift must carry the default settings entry. -/
def pairAligned (compDefault : ParamList) : SRWOpt × ParamList → Bool
  | (SRWOpt.optD _, p) => decide (p = compDefault)
  | (SRWOpt.optL _ _, _) => true

/-- Every drift in the element list is paired, position by position, with
the default settings entry in the parallel settings list. -/
def driftPrefsAligned (compDefault : ParamList) (elements : List SRWOpt)
    (prefs : List ParamList) : Bool :=
  (List.zip elements prefs).all (pairAligned compDefault)

/-- A trivial concrete engine used to evaluate the drivers on concrete
inputs: the source and propagation calls leave the wavefront unchanged and
extraction fills nothing. -/
def engine0 : Engine :=
  { calcElecFieldSR := fun w _ _ _ => w,
    propagElecField := fun w _ => w,
    calcIntFromElecField := fun _ => [] }

/-- An empty settings bag. -/
def emptyBag : SettingsBag := { entries := [] }

/-- A concrete pencil electron beam, after the test fixture
ElectronBeamPencil(3.0 GeV, 0.01, 0.5 A). -/
def eb0 : ElectronBeam := { averageCurrent := 0.5, x := 0, y := 0, gamma := 5871 }

/-- The concrete lens of the test fixture, LensIdeal(focal 2.5/2.5). -/
def lens0 : BeamlineComponent := BeamlineComponent.lensIdeal ("focus lens") 2.5 2.5 emptyBag

/-- A second concrete lens used in witnesses. -/
def lensB : BeamlineComponent := BeamlineComponent.lensIdeal ("lens b") 2 2 emptyBag

/-- The concrete image plane of the test fixture, ImagePlane. -/
def plane0 : BeamlineComponent := BeamlineComponent.imagePlane ("Image screen") emptyBag

/-- The concrete bending magnet of the test fixture: radius 2.25, field
0.4, length 4.0, acceptance angles (0.1, 0.02). -/
def bm0 : BendingMagnet :=
  { radius := 2.25, magneticField := 0.4, length := 4,
    acceptanceHorizontal := 0.1, acceptanceVertical := 0.02, bag := emptyBag }

/-- A concrete bending magnet carrying acceptance angles (0.2, 0.04),
twice the hardcoded ones. -/
def bm2 : BendingMagnet :=
  { radius := 2.25, magneticField := 0.4, length := 4,
    acceptanceHorizontal := 0.2, acceptanceVertical := 0.04, bag := emptyBag }

/-- A concrete undulator with both deflection parameters positive and
concrete domain-model formulas. -/
def u0 : Undulator :=
  { K_vertical := 1, K_horizontal := 0.5, B_vertical := 1, B_horizontal := 1,
    periodLength := 0.02, periodNumber := 100, length := 2,
    gaussianCentralConeDivergence := fun _ => 0.001,
    resonanceEnergy := fun _ _ _ => 1000.5, bag := emptyBag }

/-- A concrete settings bag carrying a payload for driver identity 0. -/
def bag1 : SettingsBag := { entries := [(0, [9])] }

theorem driftPrefsAligned_append (cd : ParamList) (els : List SRWOpt)
    (prs : List ParamList) (e : SRWOpt) (p : ParamList)
    (hlen : els.length = prs.length)
    (h : driftPrefsAligned cd els prs = true)
    (hp : pairAligned cd (e, p) = true) :
    driftPrefsAligned cd (els ++ [e]) (prs ++ [p]) = true := by
  unfold driftPrefsAligned at h ⊢
  rw [List.zip_append hlen, List.all_append]
  simp only [h, List.zip_cons_cons, List.zip_nil_right, List.all_cons, List.all_nil,
    hp, Bool.and_true, Bool.true_and]

theorem traverseLoop_invariant (driver : DriverId) (compDefault : ParamList) :
    ∀ (bl : List (BeamlineComponent × ℚ)) (st st' : TravState),
      traverseLoop driver compDefault bl st = Except.ok st' →
      st.elements.length = st.prefs.length →
      driftPrefsAligned compDefault st.elements st.prefs = true →
      st'.elements.length = st'.prefs.length ∧
        driftPrefsAligned compDefault st'.elements st'.prefs = true := by
  intro bl
  induction bl with
  | nil =>
    intro st st' h hlen halign
    simp only [traverseLoop] at h
    cases h
    exact ⟨hlen, halign⟩
  | cons hd tl ih =>
    intro st st' h hlen halign
    obtain ⟨c, z⟩ := hd
    simp only [traverseLoop] at h
    cases c with
    | imagePlane nm bg => simp at h
    | lensIdeal nm fx fy bg =>
      by_cases hz : st.currentZ < z
      · rw [if_pos hz] at h
        refine ih _ _ h ?_ ?_
        · simp [hlen]
        · refine driftPrefsAligned_append _ _ _ _ _ (by simp [hlen]) ?_ rfl
          exact driftPrefsAligned_append _ _ _ _ _ hlen halign (by simp [pairAligned])
      · rw [if_neg hz] at h
        refine ih _ _ h ?_ ?_
        · simp [hlen]
        · exact driftPrefsAligned_append _ _ _ _ _ hlen halign rfl

theorem traverseLoop_char (driver : DriverId) (compDefault : ParamList) :
    ∀ (bl : List (BeamlineComponent × ℚ)) (st : TravState),
      (∀ cz ∈ bl, IsLens cz.1) →
      List.Chain' (fun a b => a ≤ b) (st.currentZ :: bl.map Prod.snd) →
      traverseLoop driver compDefault bl st =
        Except.ok { elements := st.elements ++ expectedElements st.currentZ bl,
                    prefs := st.prefs ++ expectedPrefs driver compDefault st.currentZ bl,
                    currentZ := finalZ st.currentZ bl } := by
  intro bl
  induction bl with
  | nil =>
    intro st _ _
    simp [traverseLoop, expectedElements, expectedPrefs, finalZ]
  | cons hd tl ih =>
    intro st hlens hchain
    obtain ⟨c, z⟩ := hd
    rw [List.map_cons] at hchain
    obtain ⟨hz, hchain2⟩ := List.chain'_cons.mp hchain
    have hc : IsLens c := hlens (c, z) (List.mem_cons_self _ _)
    cases c with
    | imagePlane nm bg => exact absurd hc (by simp [IsLens])
    | lensIdeal nm fx fy bg =>
      simp only [traverseLoop]
      by_cases hlt : st.currentZ < z
      · rw [if_pos hlt]
        have ihh := ih
          { elements := (st.elements ++ [SRWOpt.optD (z - st.currentZ)])
              ++ [SRWOpt.optL fx fy],
            prefs := (st.prefs ++ [compDefault])
              ++ [resolvedParams driver compDefault
                    (BeamlineComponent.lensIdeal nm fx fy bg)],
            currentZ := z }
          (fun cz hcz => hlens cz (List.mem_cons_of_mem _ hcz)) hchain2
        rw [ihh]
        simp [expectedElements, expectedPrefs, finalZ, driftFor, lensElems,
          if_pos hlt, List.append_assoc]
      · rw [if_neg hlt]
        have hzz : z = st.currentZ := le_antisymm (not_lt.mp hlt) hz
        subst hzz
        have ihh := ih
          { elements := st.elements ++ [SRWOpt.optL fx fy],
            prefs := st.prefs ++ [resolvedParams driver compDefault
                    (BeamlineComponent.lensIdeal nm fx fy bg)],
            currentZ := st.currentZ }
          (fun cz hcz => hlens cz (List.mem_cons_of_mem _ hcz)) hchain2
        rw [ihh]
        simp [expectedElements, expectedPrefs, finalZ, driftFor, lensElems,
          if_neg hlt, List.append_assoc]

/-- C1: For every beamline whose components sit at non-decreasing
positions p0, p1, ..., the traversal of calculateRadiation, with the
current position initialized to the first component's position p0, builds
exactly the expected optical sequence: for each consecutive pair with
p_next strictly greater than p_prev exactly one drift of length
p_next - p_prev (the driftFor chunk), no drift where positions are equal,
and no drift before the first component, since its chunk compares p0 with
itself.  The parallel settings sequence and final position are
characterized as well. -/
theorem drift_insertion (driver : DriverId) (compDefault : ParamList)
    (c0 : BeamlineComponent) (p0 : ℚ) (rest : List (BeamlineComponent × ℚ))
    (hlens : ∀ cz ∈ (c0, p0) :: rest, IsLens cz.1)
    (hsorted : List.Chain' (fun a b => a ≤ b) (((c0, p0) :: rest).map Prod.snd)) :
    traverseLoop driver compDefault ((c0, p0) :: rest)
        { elements := [], prefs := [], currentZ := p0 } =
      Except.ok { elements := expectedElements p0 ((c0, p0) :: rest),
                  prefs := expectedPrefs driver compDefault p0 ((c0, p0) :: rest),
                  currentZ := finalZ p0 ((c0, p0) :: rest) } := by
  have hch : List.Chain' (fun a b => a ≤ b) (p0 :: ((c0, p0) :: rest).map Prod.snd) := by
    rw [List.map_cons]
    refine List.chain'_cons.mpr ⟨le_refl p0, ?_⟩
    rw [List.map_cons] at hsorted
    exact hsorted
  simpa using traverseLoop_char driver compDefault ((c0, p0) :: rest)
    { elements := [], prefs := [], currentZ := p0 } hlens hch

/-- Witness for C1 at a concrete three-lens beamline with positions
5, 5, 7: no drift before the first lens, none between the equal-position
pair, one drift of length 2 before the last lens. -/
theorem drift_insertion_witness :
    traverseLoop 0 []
        [(BeamlineComponent.lensIdeal ("a") 1 1 emptyBag, 5),
         (BeamlineComponent.lensIdeal ("b") 2 2 emptyBag, 5),
         (BeamlineComponent.lensIdeal ("c") 3 3 emptyBag, 7)]
        { elements := [], prefs := [], currentZ := 5 } =
      Except.ok
        { elements := expectedElements 5
            [(BeamlineComponent.lensIdeal ("a") 1 1 emptyBag, 5),
             (BeamlineComponent.lensIdeal ("b") 2 2 emptyBag, 5),
             (BeamlineComponent.lensIdeal ("c") 3 3 emptyBag, 7)],
          prefs := expectedPrefs 0 [] 5
            [(BeamlineComponent.lensIdeal ("a") 1 1 emptyBag, 5),
             (BeamlineComponent.lensIdeal ("b") 2 2 emptyBag, 5),
             (BeamlineComponent.lensIdeal ("c") 3 3 emptyBag, 7)],
          currentZ := finalZ 5
            [(BeamlineComponent.lensIdeal ("a") 1 1 emptyBag, 5),
             (BeamlineComponent.lensIdeal ("b") 2 2 emptyBag, 5),
             (BeamlineComponent.lensIdeal ("c") 3 3 emptyBag, 7)] } :=
  drift_insertion 0 [] (BeamlineComponent.lensIdeal ("a") 1 1 emptyBag) 5
    [(BeamlineComponent.lensIdeal ("b") 2 2 emptyBag, 5),
     (BeamlineComponent.lensIdeal ("c") 3 3 emptyBag, 7)]
    (by decide) (by norm_num [List.chain'_cons, List.chain'_singleton])

/-- C7: For every beamline on which the traversal completes without
error, the translated optical-element list and the resolved-settings list
have equal length, and in both drivers the optical system handed to the
external propagation call (the last recorded engine call) is composed of
exactly those two index-aligned lists. -/
theorem traversal_alignment (driver : DriverId) (compDefault srcDefault : ParamList)
    (engine : Engine) (sqrt2 : ℚ) (electron_beam : ElectronBeam)
    (undulator : Undulator) (bmDefault : ParamList) (bending_magnet : BendingMagnet)
    (c0 : BeamlineComponent) (p0 : ℚ) (rest : List (BeamlineComponent × ℚ))
    (st : TravState)
    (h : traverseLoop driver compDefault ((c0, p0) :: rest)
        { elements := [], prefs := [], currentZ := p0 } = Except.ok st) :
    st.elements.length = st.prefs.length ∧
      ((DriverSRW.calculateRadiation engine sqrt2 srcDefault compDefault driver
            electron_beam (RadiationSource.undulator undulator)
            { components := (c0, p0) :: rest }).1.getLast?.bind EngineCall.optC?) =
        some { elements := st.elements, prefs := st.prefs } ∧
      ((ExamplesSRW.calculateRadiation engine sqrt2 srcDefault bmDefault compDefault
            driver electron_beam (RadiationSource.bendingMagnet bending_magnet)
            { components := (c0, p0) :: rest }).1.getLast?.bind EngineCall.optC?) =
        some { elements := st.elements, prefs := st.prefs } := by
  refine ⟨(traverseLoop_invariant driver compDefault _ _ _ h rfl rfl).1, ?_, ?_⟩
  · simp only [DriverSRW.calculateRadiation]
    rw [h]
    simp [EngineCall.optC?]
  · simp only [ExamplesSRW.calculateRadiation]
    rw [h]
    simp [EngineCall.optC?]

/-- Witness for C7 at a concrete two-lens beamline with positions 5 and 7:
the traversal yields three elements (lens, drift, lens) and three settings
entries, and both drivers hand exactly these lists to the propagation
call. -/
theorem traversal_alignment_witness :
    ([SRWOpt.optL 2.5 2.5, SRWOpt.optD 2, SRWOpt.optL 2 2] : List SRWOpt).length =
        ([[], [], []] : List ParamList).length ∧
      ((DriverSRW.calculateRadiation engine0 1 [] [] 0 eb0
            (RadiationSource.undulator u0)
            { components := [(lens0, 5), (lensB, 7)] }).1.getLast?.bind
          EngineCall.optC?) =
        some { elements := [SRWOpt.optL 2.5 2.5, SRWOpt.optD 2, SRWOpt.optL 2 2],
               prefs := [[], [], []] } ∧
      ((ExamplesSRW.calculateRadiation engine0 1 [] [] [] 0 eb0
            (RadiationSource.bendingMagnet bm0)
            { components := [(lens0, 5), (lensB, 7)] }).1.getLast?.bind
          EngineCall.optC?) =
        some { elements := [SRWOpt.optL 2.5 2.5, SRWOpt.optD 2, SRWOpt.optL 2 2],
               prefs := [[], [], []] } :=
  traversal_alignment 0 [] [] engine0 1 eb0 u0 [] bm0 lens0 5 [(lensB, 7)]
    { elements := [SRWOpt.optL 2.5 2.5, SRWOpt.optD 2, SRWOpt.optL 2 2],
      prefs := [[], [], []], currentZ := 7 }
    (by norm_num [traverseLoop, resolvedParams, hasSettings, settingsOf, lens0, lensB,
      emptyBag, BeamlineComponent.bag])

/-- C8: Settings resolution.  For a beamline component, the parameter list
the traversal appends is the payload attached for this driver identity if
one exists and the freshly constructed default otherwise, which is the
lookup with default fallback; every inserted drift is paired, position by
position, with the default settings entry; and the parameter list handed
to the source calculation (the first recorded engine call) is likewise the
source's attached payload for this driver if present, else the default
source settings. -/
theorem settings_resolution (driver : DriverId) (compDefault srcDefault : ParamList)
    (nm : String) (fx fy : ℚ) (bag : SettingsBag)
    (engine : Engine) (sqrt2 : ℚ) (electron_beam : ElectronBeam)
    (undulator : Undulator) (c0 : BeamlineComponent) (p0 : ℚ)
    (rest : List (BeamlineComponent × ℚ)) (st : TravState)
    (h : traverseLoop driver compDefault ((c0, p0) :: rest)
        { elements := [], prefs := [], currentZ := p0 } = Except.ok st) :
    resolvedParams driver compDefault (BeamlineComponent.lensIdeal nm fx fy bag) =
        ((bag.entries.lookup driver).getD compDefault) ∧
      driftPrefsAligned compDefault st.elements st.prefs = true ∧
      ((DriverSRW.calculateRadiation engine sqrt2 srcDefault compDefault driver
            electron_beam (RadiationSource.undulator undulator)
            { components := (c0, p0) :: rest }).1.head?.bind EngineCall.params?) =
        some ((undulator.bag.entries.lookup driver).getD srcDefault) := by
  refine ⟨?_, (traverseLoop_invariant driver compDefault _ _ _ h rfl rfl).2, ?_⟩
  · unfold resolvedParams hasSettings settingsOf BeamlineComponent.bag
    cases hl : bag.entries.lookup driver <;> simp [hl]
  · simp only [DriverSRW.calculateRadiation]
    rw [h]
    unfold hasSettings settingsOf
    cases hl : undulator.bag.entries.lookup driver <;> simp [hl, EngineCall.params?]

/-- Witness for C8 at concrete inputs: a lens carrying a payload for
driver identity 0 resolves to that payload via lookup, a lens without one
resolves to the default, and the concrete one-lens traversal and source
call show the drift pairing and source resolution. -/
theorem settings_resolution_witness :
    resolvedParams 0 [5] (BeamlineComponent.lensIdeal ("L") 1 2 bag1) =
        ((bag1.entries.lookup 0).getD [5]) ∧
      driftPrefsAligned [5]
          ([SRWOpt.optL 2.5 2.5] : List SRWOpt) ([[5]] : List ParamList) = true ∧
      ((DriverSRW.calculateRadiation engine0 1 [7] [5] 0 eb0
            (RadiationSource.undulator u0)
            { components := [(lens0, 5)] }).1.head?.bind EngineCall.params?) =
        some ((u0.bag.entries.lookup 0).getD [7]) :=
  settings_resolution 0 [5] [7] ("L") 1 2 bag1 engine0 1 eb0 u0 lens0 5 []
    { elements := [SRWOpt.optL 2.5 2.5], prefs := [[5]], currentZ := 5 }
    (by rfl)

/-- C5: For every invocation of calculateRadiation, in either driver, on
an empty beamline, the call fails with the invalid-beamline error raised
when the first component is looked up, the recorded engine-call trace is
empty (no call into the external engine was made), and no field handle is
returned. -/
theorem empty_beamline_error (engine : Engine) (sqrt2 : ℚ)
    (srcDefault compDefault undDefault bmDefault : ParamList) (driver : DriverId)
    (electron_beam : ElectronBeam) (radiation_source : RadiationSource) :
    DriverSRW.calculateRadiation engine sqrt2 srcDefault compDefault driver
        electron_beam radiation_source { components := [] } =
      ([], Except.error DriverError.invalidBeamline) ∧
    ExamplesSRW.calculateRadiation engine sqrt2 undDefault bmDefault compDefault driver
        electron_beam radiation_source { components := [] } =
      ([], Except.error DriverError.invalidBeamline) :=
  ⟨rfl, rfl⟩

/-- C9: For every field handle, calculateIntensity and calculatePhase of
both drivers return the micrometer-scaled display meshes
(1e6 xStart, 1e6 xFin, nx) and (1e6 yStart, 1e6 yFin, ny), and return the
field handle itself unchanged: the extraction call only fills the output
array, so mesh bounds, sample counts and photon energies are the same
before and after the call. -/
theorem extraction_mesh_and_purity (engine : Engine) (radiation : SRWLWfr) :
    (DriverSRW.calculateIntensity engine radiation).2 = radiation ∧
    (DriverSRW.calculateIntensity engine radiation).1.2.2.1 =
      (1000000 * radiation.mesh.xStart, 1000000 * radiation.mesh.xFin,
        radiation.mesh.nx) ∧
    (DriverSRW.calculateIntensity engine radiation).1.2.2.2 =
      (1000000 * radiation.mesh.yStart, 1000000 * radiation.mesh.yFin,
        radiation.mesh.ny) ∧
    (DriverSRW.calculatePhase engine radiation).2 = radiation ∧
    (DriverSRW.calculatePhase engine radiation).1.2.2.1 =
      (1000000 * radiation.mesh.xStart, 1000000 * radiation.mesh.xFin,
        radiation.mesh.nx) ∧
    (DriverSRW.calculatePhase engine radiation).1.2.2.2 =
      (1000000 * radiation.mesh.yStart, 1000000 * radiation.mesh.yFin,
        radiation.mesh.ny) ∧
    (ExamplesSRW.calculateIntensity engine radiation).2 = radiation ∧
    (ExamplesSRW.calculateIntensity engine radiation).1.2.2.1 =
      (1000000 * radiation.mesh.xStart, 1000000 * radiation.mesh.xFin,
        radiation.mesh.nx) ∧
    (ExamplesSRW.calculateIntensity engine radiation).1.2.2.2 =
      (1000000 * radiation.mesh.yStart, 1000000 * radiation.mesh.yFin,
        radiation.mesh.ny) ∧
    (ExamplesSRW.calculatePhase engine radiation).2 = radiation ∧
    (ExamplesSRW.calculatePhase engine radiation).1.2.2.1 =
      (1000000 * radiation.mesh.xStart, 1000000 * radiation.mesh.xFin,
        radiation.mesh.nx) ∧
    (ExamplesSRW.calculatePhase engine radiation).1.2.2.2 =
      (1000000 * radiation.mesh.yStart, 1000000 * radiation.mesh.yFin,
        radiation.mesh.ny) :=
  ⟨rfl, rfl, rfl, rfl, rfl, rfl, rfl, rfl, rfl, rfl, rfl, rfl⟩

/-- C10: The calculateIntensity and calculatePhase implementations of the
two driver files are extensionally equal: for every engine and field
handle they produce identical results, including the extraction request
issued (same output allocation, mode, polarization, dependent-variable and
energy arguments); the intensity allocation is a zero-initialized
single-precision array of nx times ny entries and the phase allocation the
double-precision counterpart. -/
theorem extractors_equal (engine : Engine) (radiation : SRWLWfr) :
    DriverSRW.calculateIntensity engine radiation =
        ExamplesSRW.calculateIntensity engine radiation ∧
      DriverSRW.calculatePhase engine radiation =
        ExamplesSRW.calculatePhase engine radiation ∧
      (DriverSRW.calculateIntensity engine radiation).1.1.out =
        { prec := Precision.single,
          contents := List.replicate (radiation.mesh.nx * radiation.mesh.ny) 0 } ∧
      (DriverSRW.calculatePhase engine radiation).1.1.out =
        { prec := Precision.double,
          contents := List.replicate (radiation.mesh.nx * radiation.mesh.ny) 0 } :=
  ⟨rfl, rfl, rfl, rfl⟩

/-- C6: The magnetic-field list built by the undulator translation
contains a vertical harmonic term exactly when K_vertical is strictly
positive and a horizontal harmonic term exactly when K_horizontal is
strictly positive, and when both are present the list is the vertical term
followed by the horizontal term. -/
theorem undulator_field_terms (u : Undulator) :
    ((∃ f ∈ (DriverSRW.SRWUndulator u).arHarm, f.h_or_v = 'v') ↔ 0 < u.K_vertical) ∧
      ((∃ f ∈ (DriverSRW.SRWUndulator u).arHarm, f.h_or_v = 'h') ↔
        0 < u.K_horizontal) ∧
      (0 < u.K_vertical → 0 < u.K_horizontal →
        (DriverSRW.SRWUndulator u).arHarm =
          [{ n := 1, h_or_v := 'v', B := u.B_vertical, ph := 0, s := 1, a := 1 },
           { n := 1, h_or_v := 'h', B := u.B_horizontal, ph := 0, s := -1, a := 1 }]) := by
  unfold DriverSRW.SRWUndulator
  by_cases hv : (0 : ℚ) < u.K_vertical <;> by_cases hh : (0 : ℚ) < u.K_horizontal <;>
    simp [hv, hh]

/-- Witness for C6 at a concrete undulator with both deflection parameters
positive. -/
theorem undulator_field_terms_witness :
    ((∃ f ∈ (DriverSRW.SRWUndulator u0).arHarm, f.h_or_v = 'v') ↔ 0 < u0.K_vertical) ∧
      ((∃ f ∈ (DriverSRW.SRWUndulator u0).arHarm, f.h_or_v = 'h') ↔
        0 < u0.K_horizontal) ∧
      (0 < u0.K_vertical → 0 < u0.K_horizontal →
        (DriverSRW.SRWUndulator u0).arHarm =
          [{ n := 1, h_or_v := 'v', B := u0.B_vertical, ph := 0, s := 1, a := 1 },
           { n := 1, h_or_v := 'h', B := u0.B_horizontal, ph := 0, s := -1, a := 1 }]) :=
  undulator_field_terms u0

/-- C4: The wavefront mesh built in the undulator branch of
calculateRadiation is square and centered at zero with half-width
2.5 times the central-cone divergence at gamma times the undulator length
plus the first component position, divided by the host value of sqrt(2.0);
its start and end photon energies both equal the on-axis resonance energy
truncated by Python int(); the resolution is 1000 by 1000 samples; and it
is exactly the wavefront handed to the first recorded engine call of
calculateRadiation. -/
theorem undulator_mesh (sqrt2 : ℚ) (electron_beam : ElectronBeam)
    (undulator : Undulator) (p0 : ℚ) (engine : Engine)
    (srcDefault compDefault : ParamList) (driver : DriverId)
    (c0 : BeamlineComponent) (rest : List (BeamlineComponent × ℚ)) :
    (DriverSRW.undulatorWavefront sqrt2 electron_beam undulator p0).mesh.xStart =
        -(2.5 * undulator.gaussianCentralConeDivergence electron_beam.gamma *
          (undulator.length + p0) / sqrt2) ∧
      (DriverSRW.undulatorWavefront sqrt2 electron_beam undulator p0).mesh.xFin =
        2.5 * undulator.gaussianCentralConeDivergence electron_beam.gamma *
          (undulator.length + p0) / sqrt2 ∧
      (DriverSRW.undulatorWavefront sqrt2 electron_beam undulator p0).mesh.yStart =
        -(2.5 * undulator.gaussianCentralConeDivergence electron_beam.gamma *
          (undulator.length + p0) / sqrt2) ∧
      (DriverSRW.undulatorWavefront sqrt2 electron_beam undulator p0).mesh.yFin =
        2.5 * undulator.gaussianCentralConeDivergence electron_beam.gamma *
          (undulator.length + p0) / sqrt2 ∧
      (DriverSRW.undulatorWavefront sqrt2 electron_beam undulator p0).mesh.eStart =
        ((pyInt (undulator.resonanceEnergy electron_beam.gamma 0 0) : ℚ)) ∧
      (DriverSRW.undulatorWavefront sqrt2 electron_beam undulator p0).mesh.eFin =
        ((pyInt (undulator.resonanceEnergy electron_beam.gamma 0 0) : ℚ)) ∧
      (DriverSRW.undulatorWavefront sqrt2 electron_beam undulator p0).mesh.nx = 1000 ∧
      (DriverSRW.undulatorWavefront sqrt2 electron_beam undulator p0).mesh.ny = 1000 ∧
      ((DriverSRW.calculateRadiation engine sqrt2 srcDefault compDefault driver
            electron_beam (RadiationSource.undulator undulator)
            { components := (c0, p0) :: rest }).1.head?.bind EngineCall.wfr?) =
        some (DriverSRW.undulatorWavefront sqrt2 electron_beam undulator p0) := by
  refine ⟨?_, ?_, ?_, ?_, rfl, rfl, rfl, rfl, ?_⟩
  · simp only [DriverSRW.undulatorWavefront,
      DriverSRW.createQuadraticSRWWavefrontSingleEnergy]
    ring
  · simp only [DriverSRW.undulatorWavefront,
      DriverSRW.createQuadraticSRWWavefrontSingleEnergy]
    ring
  · simp only [DriverSRW.undulatorWavefront,
      DriverSRW.createQuadraticSRWWavefrontSingleEnergy]
    ring
  · simp only [DriverSRW.undulatorWavefront,
      DriverSRW.createQuadraticSRWWavefrontSingleEnergy]
    ring
  · simp only [DriverSRW.calculateRadiation]
    cases traverseLoop driver compDefault ((c0, p0) :: rest)
        { elements := [], prefs := [], currentZ := p0 } with
    | error e => simp [EngineCall.wfr?]
    | ok st => simp [EngineCall.wfr?]

/-- Counterexample for C3: the concrete bending magnet bm2 carries
acceptance angles (0.2, 0.04) and the beamline's first component sits at
z0 = 5, so the claimed horizontal half-width would be
0.5 * 0.2 * 5 = 0.5; but the wavefront actually built by the
bending-magnet branch (the one handed to the first recorded engine call)
has xFin = 0.5 * 0.1 * 5 = 0.25, because the branch hardcodes the angles
0.1 and 0.02 instead of reading the source's acceptance. -/
theorem bending_magnet_mesh_counterexample :
    ((ExamplesSRW.calculateRadiation engine0 1 [] [] [] 0 eb0
          (RadiationSource.bendingMagnet bm2)
          { components := [(lens0, 5)] }).1.head?.bind EngineCall.wfr?) =
        some (ExamplesSRW.bendingMagnetWavefront (SRWAdapter.SRWElectronBeam eb0) 5) ∧
      ¬ ((ExamplesSRW.bendingMagnetWavefront
            (SRWAdapter.SRWElectronBeam eb0) 5).mesh.xFin =
          0.5 * bm2.acceptanceHorizontal * 5) := by
  constructor
  · rfl
  · norm_num [ExamplesSRW.bendingMagnetWavefront,
      SRWAdapter.createRectangularSRWWavefrontSingleEnergy, bm2]

/-- C3 (amended): The wavefront mesh built in the bending-magnet branch of
calculateRadiation is rectangular with horizontal half-width
0.5 * 0.1 * z0 and vertical half-width 0.5 * 0.02 * z0, computed from the
hardcoded acceptance angles (0.1, 0.02) irrespective of the acceptance
angles the source carries; its longitudinal start position is z0, the
first component's position, with no magnet-length offset; and it is the
wavefront handed to the first recorded engine call. -/
theorem bending_magnet_mesh_hardcoded (srw_electron_beam : SRWLPartBeam) (p0 : ℚ)
    (engine : Engine) (sqrt2 : ℚ) (undDefault bmDefault compDefault : ParamList)
    (driver : DriverId) (electron_beam : ElectronBeam)
    (bending_magnet : BendingMagnet) (c0 : BeamlineComponent)
    (rest : List (BeamlineComponent × ℚ)) :
    (ExamplesSRW.bendingMagnetWavefront srw_electron_beam p0).mesh.xStart =
        -(0.5 * 0.1 * p0) ∧
      (ExamplesSRW.bendingMagnetWavefront srw_electron_beam p0).mesh.xFin =
        0.5 * 0.1 * p0 ∧
      (ExamplesSRW.bendingMagnetWavefront srw_electron_beam p0).mesh.yStart =
        -(0.5 * 0.02 * p0) ∧
      (ExamplesSRW.bendingMagnetWavefront srw_electron_beam p0).mesh.yFin =
        0.5 * 0.02 * p0 ∧
      (ExamplesSRW.bendingMagnetWavefront srw_electron_beam p0).mesh.zStart = p0 ∧
      (ExamplesSRW.bendingMagnetWavefront srw_electron_beam p0).mesh.nx = 1000 ∧
      (ExamplesSRW.bendingMagnetWavefront srw_electron_beam p0).mesh.ny = 1000 ∧
      ((ExamplesSRW.calculateRadiation engine sqrt2 undDefault bmDefault compDefault
            driver electron_beam (RadiationSource.bendingMagnet bending_magnet)
            { components := (c0, p0) :: rest }).1.head?.bind EngineCall.wfr?) =
        some (ExamplesSRW.bendingMagnetWavefront
          (SRWAdapter.SRWElectronBeam electron_beam) p0) := by
  refine ⟨rfl, rfl, rfl, rfl, rfl, rfl, rfl, ?_⟩
  simp only [ExamplesSRW.calculateRadiation]
  cases traverseLoop driver compDefault ((c0, p0) :: rest)
      { elements := [], prefs := [], currentZ := p0 } with
  | error e => simp [EngineCall.wfr?]
  | ok st => simp [EngineCall.wfr?]

/-- C2, evaluated at the failing input: on the repo test fixture beamline,
an ideal lens at position 5.0 followed by an ImagePlane at position 10.0,
with the test's bending-magnet source, calculateRadiation does not
complete normally: the traversal raises NotImplementedError when it
reaches the ImagePlane (after inserting the drift for the gap), in both
drivers, instead of treating the plane as a contribution-free
placeholder. -/
theorem image_plane_not_implemented :
    (ExamplesSRW.calculateRadiation engine0 1 [] [] [] 0 eb0
          (RadiationSource.bendingMagnet bm0)
          { components := [(lens0, 5), (plane0, 10)] }).2 =
        Except.error DriverError.notImplemented ∧
      (DriverSRW.calculateRadiation engine0 1 [] [] 0 eb0
          (RadiationSource.undulator u0)
          { components := [(lens0, 5), (plane0, 10)] }).2 =
        Except.error DriverError.notImplemented :=
  ⟨rfl, rfl⟩
